import Mathlib

/-!
Verification of the serverless SNS-plus plugin (`src/index.js`) against its
specification.  The plugin's methods are shallowly embedded as pure Lean
functions: the plugin instance fields become explicit state parameters,
remote calls become oracle functions passed in (`lookup`, `fetchResult`,
`remoteAccount`), and promise rejection becomes `Except`.  JavaScript
truthiness of optional string fields ("" and `undefined` are falsy) is
modelled by `jsTruthyStr`.
-/

namespace SNSPlus

/-- JavaScript truthiness of an optional string field: `undefined` (`none`)
and the empty string are falsy, every other string is truthy. -/
def jsTruthyStr : Option String → Bool
  | none => false
  | some s => !s.isEmpty

/-- `formatSNSArn` from the source: the template literal
`arn:aws:sns:${region}:${accountId}:${topicName}`.  The method reads the
region via `this.getRegion()`; here it is an explicit argument. -/
def formatSNSArn (region accountId topicName : String) : String :=
  "arn:aws:sns:" ++ region ++ ":" ++ accountId ++ ":" ++ topicName

/-- `getRegion` from the source:
`this.options.region || (provider && provider.region) || "us-east-1"`.
`optionsRegion` is the `region` field of the invocation options;
`providerRegion` is `none` when `service.provider` itself is absent, and
`some r` when the provider object is present with `region` field `r`. -/
def getRegion (optionsRegion : Option String)
    (providerRegion : Option (Option String)) : String :=
  if jsTruthyStr optionsRegion then optionsRegion.getD ""
  else
    match providerRegion with
    | some r => if jsTruthyStr r then r.getD "" else "us-east-1"
    | none => "us-east-1"

/-- The two account-id fields of the plugin instance.  The source's guard in
`getAccountId` reads the misspelled field `accoundId`, while the resolve
handler writes `accountId`; both are therefore modelled separately.  A fresh
instance has neither field set (the constructor initializes neither). -/
structure PluginAcct where
  accoundId : Option String
  accountId : Option String
  deriving Repr, DecidableEq

/-- `getAccountId` from the source, as a state transformer.  `remoteAccount`
is the account id the identity service would return.  The result is the new
instance state, the value the promise resolves with, and the number of
remote `getCallerIdentity` calls issued by this invocation (0 or 1):
if `this.accoundId` is truthy the stored `this.accountId` is returned with
no remote call; otherwise one remote call is issued and its `Account` is
stored into `this.accountId` and returned. -/
def getAccountId (s : PluginAcct) (remoteAccount : String) :
    PluginAcct × Option String × Nat :=
  if jsTruthyStr s.accoundId then
    (s, s.accountId, 0)
  else
    ({ s with accountId := some remoteAccount }, some remoteAccount, 1)

/-- Total number of remote identity calls issued by two successive
invocations of `getAccountId` on the same instance. -/
def remoteCallsOverTwoInvocations (s : PluginAcct) (remoteAccount : String) : Nat :=
  let r1 := getAccountId s remoteAccount
  let r2 := getAccountId r1.1 remoteAccount
  r1.2.2 + r2.2.2

/-- The `Attributes` object returned by `getTopicAttributes`, restricted to
the two fields the source reads. -/
structure TopicAttrs where
  SubscriptionsPending : String
  SubscriptionsConfirmed : String
  deriving Repr, DecidableEq

/-- The per-topic delete decision inside `cleanUpOrphanedTopics`:
`resp && resp.Attributes.SubscriptionsPending === "0" &&
 resp.Attributes.SubscriptionsConfirmed === "0"`.
A lookup that resolves with a falsy response (`.ok none`) or an error does
not delete; an error is handled separately (it propagates, see
`cleanupOutcome`). -/
def shouldDelete (lookupResult : Except String (Option TopicAttrs)) : Bool :=
  match lookupResult with
  | .ok (some a) =>
      a.SubscriptionsPending == "0" && a.SubscriptionsConfirmed == "0"
  | .ok none => false
  | .error _ => false

/-- The settlement of the `BbPromise.all` in `cleanUpOrphanedTopics`: the
source attaches no `catch` to the per-topic `getTopicAttributes` request, so
the first rejected lookup rejects the whole phase. -/
def cleanupOutcome (topics : List String)
    (lookup : String → Except String (Option TopicAttrs)) : Except String Unit :=
  match topics.findSome? (fun t =>
      match lookup t with
      | .error e => some e
      | .ok _ => none) with
  | some e => .error e
  | none => .ok ()

/-- Observable behaviour of one run of `cleanUpOrphanedTopics`:
which `getTopicAttributes` lookups were issued, which `deleteTopic` calls
were issued, and whether the phase promise resolved or rejected. -/
structure CleanupResult where
  lookups : List String
  deletes : List String
  outcome : Except String Unit
  deriving Repr

/-- `cleanUpOrphanedTopics` from the source.  `snsPlusClean` is `none` when
`service.custom` is absent, and `some b` when it is present with the
truthiness of its `snsPlusClean` field being `b`; the source returns an
already-resolved promise (no lookups, no deletes) unless the flag is truthy.
When enabled, every topic in `currentTopics` gets one attribute lookup
(fan-out), each topic whose lookup satisfies `shouldDelete` gets one
`deleteTopic` call, and the phase rejects iff some lookup rejected. -/
def cleanUpOrphanedTopics (snsPlusClean : Option Bool) (currentTopics : List String)
    (lookup : String → Except String (Option TopicAttrs)) : CleanupResult :=
  match snsPlusClean with
  | none => ⟨[], [], .ok ()⟩
  | some false => ⟨[], [], .ok ()⟩
  | some true =>
      ⟨currentTopics,
       currentTopics.filter (fun t => shouldDelete (lookup t)),
       cleanupOutcome currentTopics lookup⟩

/-- Whether a cleanup run resolved successfully. -/
def isResolved (r : CleanupResult) : Bool :=
  match r.outcome with
  | .ok _ => true
  | .error _ => false

/-- A JSON value occurring as the `TopicArn` property of a template
resource: either a literal string or a reference object such as
`{Ref: ...}` (whose contents the source never inspects: only
`typeof v === "string"` and truthiness are tested). -/
inductive JSVal where
  | str (s : String) : JSVal
  | obj : JSVal
  deriving Repr, DecidableEq

/-- A CloudFormation resource, restricted to the fields the source reads:
`Type` and `Properties.TopicArn` (`none` when the property is absent). -/
structure CFResource where
  type : String
  topicArn : Option JSVal
  deriving Repr, DecidableEq

/-- The filter-and-map over the fetched template's `Resources` performed by
`currentSNSTopics`: keep resources with
`Type === "AWS::SNS::Subscription" && Properties.TopicArn &&
 typeof Properties.TopicArn === "string"`
and return each kept resource's `TopicArn`, in resource-key order. -/
def currentSNSTopicsFrom (resources : List (String × CFResource)) : List String :=
  ((resources.map Prod.snd).filter (fun r =>
      r.type == "AWS::SNS::Subscription" &&
      (match r.topicArn with
       | some (JSVal.str s) => !s.isEmpty
       | some JSVal.obj => false
       | none => false))).map (fun r =>
    match r.topicArn with
    | some (JSVal.str s) => s
    | _ => "")

/-- `currentSNSTopics` from the source.  `fetchResult` is the settlement of
the `getTemplate` request; the attached `catch` replaces a rejection with
the literal template `{"Resources": {}}`, i.e. the empty resource map, and
the pipeline then resolves with the extracted topic list. -/
def currentSNSTopics (fetchResult : Except String (List (String × CFResource))) :
    Except String (List String) :=
  let resources :=
    match fetchResult with
    | .error _ => []
    | .ok rs => rs
  .ok (currentSNSTopicsFrom resources)

/-- A serverless event entry, restricted to the fields the source touches:
the custom tag `snsPlus` (a topic name), the native field `sns` (an ARN),
and the remaining fields, modelled opaquely. -/
structure Event where
  snsPlus : Option String
  sns : Option String
  other : List (String × String)
  deriving Repr, DecidableEq

/-- A serverless function definition; `events` is `none` when the function
has no `events` field at all. -/
structure Func where
  events : Option (List Event)
  deriving Repr, DecidableEq

/-- `allFunctions` from the source: the values of the `service.functions`
map, in key order. -/
def allFunctions (functions : List (String × Func)) : List Func :=
  functions.map Prod.snd

/-- The predicate of `allSNSPlusFunctions`:
`func.events && func.events.some(event => event.snsPlus)`. -/
def hasSNSPlusEvent (f : Func) : Bool :=
  match f.events with
  | none => false
  | some evs => evs.any (fun e => jsTruthyStr e.snsPlus)

/-- `allSNSPlusFunctions` from the source. -/
def allSNSPlusFunctions (functions : List (String × Func)) : List Func :=
  (allFunctions functions).filter hasSNSPlusEvent

/-- Topic names of the truthy custom-tagged events of an event list, in
order: the `.filter(event => event.snsPlus).map(event => event.snsPlus)`
steps of `allSNSPlusTopics`. -/
def snsPlusTopicNames (evs : List Event) : List String :=
  (evs.filter (fun e => jsTruthyStr e.snsPlus)).map (fun e => e.snsPlus.getD "")

/-- `allSNSPlusTopics` from the source: concatenate the event lists of all
functions that have some custom event (`reduce` with `concat`), keep the
custom-tagged ones, project their topic names, and append the accumulated
`topicRefs`. -/
def allSNSPlusTopics (functions : List (String × Func)) (topicRefs : List String) :
    List String :=
  snsPlusTopicNames
      ((allSNSPlusFunctions functions).foldl (fun acc f => acc ++ f.events.getD []) [])
    ++ topicRefs

/-- The creation set as the specification describes it: the topic names
carried by custom-tagged events across ALL functions, in traversal order
with duplicates preserved, concatenated with the variable-accumulated
topic names. -/
def allTopicNamesSpec (functions : List (String × Func)) (topicRefs : List String) :
    List String :=
  snsPlusTopicNames
      ((allFunctions functions).foldl (fun acc f => acc ++ f.events.getD []) [])
    ++ topicRefs

/-- `loadAndReplaceTopicFromVariable` from the source, as a state
transformer on `topicRefs`: strip the leading `snsPlus:` (the regex
`^snsPlus:` replace), push the topic name onto `topicRefs`, and resolve
with the formatted ARN. -/
def loadAndReplaceTopicFromVariable (topicRefs : List String)
    (region accountId variableString : String) : List String × String :=
  let topicName :=
    if "snsPlus:".data.isPrefixOf variableString.data then
      ⟨variableString.data.drop 8⟩
    else variableString
  (topicRefs ++ [topicName], formatSNSArn region accountId topicName)

/-- The per-event mutation of `convertToSNSEvents`:
`if (event.snsPlus) event.sns = this.formatSNSArn(accountId, event.snsPlus)`. -/
def convertEvent (region accountId : String) (e : Event) : Event :=
  if jsTruthyStr e.snsPlus then
    { e with sns := some (formatSNSArn region accountId (e.snsPlus.getD "")) }
  else e

/-- The effect of `convertToSNSEvents` on one function object: the source
iterates `allSNSPlusFunctions()` and mutates their (necessarily present)
event lists in place, leaving every other function untouched. -/
def convertFunc (region accountId : String) (f : Func) : Func :=
  if hasSNSPlusEvent f then
    { f with events := some ((f.events.getD []).map (convertEvent region accountId)) }
  else f

/-- `convertToSNSEvents` from the source, as a pure transformation of the
functions map (in-place mutation of shared objects becomes rebuilding the
map with the mutated functions). -/
def convertToSNSEvents (region accountId : String)
    (functions : List (String × Func)) : List (String × Func) :=
  functions.map (fun p => (p.1, convertFunc region accountId p.2))

/-! ### Helper lemmas -/

/-- Counting in a filtered list when the element fails the predicate. -/
theorem count_filter_of_false {p : String → Bool} {l : List String} {a : String}
    (h : p a = false) : (l.filter p).count a = 0 :=
  List.count_eq_zero.mpr (fun hmem => by
    have h2 := (List.mem_filter.mp hmem).2
    rw [h] at h2
    cases h2)

/-- When every lookup resolves, the error scan over the topics finds
nothing. -/
theorem findSomeErr_eq_none {topics : List String}
    {lookup : String → Except String (Option TopicAttrs)}
    (h : ∀ t ∈ topics, ∃ v, lookup t = .ok v) :
    topics.findSome? (fun t =>
      match lookup t with
      | .error e => some e
      | .ok _ => none) = none := by
  induction topics with
  | nil => rfl
  | cons t ts ih =>
    obtain ⟨v, hv⟩ := h t (List.mem_cons_self t ts)
    rw [List.findSome?_cons, hv]
    exact ih (fun u hu => h u (List.mem_cons_of_mem t hu))

/-- When some listed topic's lookup rejects, the error scan finds an
error. -/
theorem findSomeErr_eq_some {topics : List String}
    {lookup : String → Except String (Option TopicAttrs)} {T e : String}
    (hmem : T ∈ topics) (he : lookup T = .error e) :
    ∃ er, topics.findSome? (fun t =>
      match lookup t with
      | .error e => some e
      | .ok _ => none) = some er := by
  induction topics with
  | nil => cases hmem
  | cons t ts ih =>
    rw [List.findSome?_cons]
    cases hlt : lookup t with
    | error er => exact ⟨er, rfl⟩
    | ok v =>
      rcases List.mem_cons.mp hmem with h | h
      · subst h
        rw [he] at hlt
        cases hlt
      · exact ih h

/-! ### Claim theorems -/

/-- Claim C1 (code evaluated at the failing input): on a fresh plugin
instance, two successive invocations of `getAccountId` issue two remote
`getCallerIdentity` calls, not one — the memo guard reads the misspelled
field `accoundId`, which the resolve handler (writing `accountId`) never
sets, so it is still unset after the first call. -/
theorem getAccountId_double_remote_call :
    remoteCallsOverTwoInvocations ⟨none, none⟩ "123456789012" = 2
    ∧ (getAccountId ⟨none, none⟩ "123456789012").1.accoundId = none :=
  ⟨rfl, rfl⟩

/-- Claim C2 counterexample: the pre-deploy snapshot can list the same
topic ARN twice (two subscription resources to the same topic), and the
per-element `map` of `cleanUpOrphanedTopics` then issues one delete-topic
call per occurrence — two for a duplicated ARN with zero pending and zero
confirmed subscriptions, not the claimed exactly one. -/
theorem cleanup_duplicate_snapshot_two_deletes :
    (cleanUpOrphanedTopics (some true)
      ["arn:aws:sns:us-east-1:123456789012:t1",
       "arn:aws:sns:us-east-1:123456789012:t1"]
      (fun _ => Except.ok (some ⟨"0", "0"⟩))).deletes.count
        "arn:aws:sns:us-east-1:123456789012:t1" = 2 := by
  decide

/-- Claim C2 (amended): with cleanup enabled, for every topic ARN `T`,
cleanup issues exactly one delete-topic call per occurrence of `T` in the
pre-deploy snapshot list when `T`'s attribute lookup reports
`SubscriptionsPending = "0"` and `SubscriptionsConfirmed = "0"` (so a topic
listed once is deleted exactly once), and zero delete-topic calls for `T`
when either count is nonzero. -/
theorem cleanup_deletes_per_occurrence
    (topics : List String) (lookup : String → Except String (Option TopicAttrs))
    (T : String) :
    (lookup T = .ok (some ⟨"0", "0"⟩) →
      (cleanUpOrphanedTopics (some true) topics lookup).deletes.count T
        = topics.count T)
    ∧ (∀ pend conf, lookup T = .ok (some ⟨pend, conf⟩) →
        (pend ≠ "0" ∨ conf ≠ "0") →
      (cleanUpOrphanedTopics (some true) topics lookup).deletes.count T = 0) := by
  constructor
  · intro h
    show (topics.filter (fun t => shouldDelete (lookup t))).count T = topics.count T
    rw [List.count_filter (by rw [h]; rfl)]
  · intro pend conf h hne
    show (topics.filter (fun t => shouldDelete (lookup t))).count T = 0
    apply count_filter_of_false
    show shouldDelete (lookup T) = false
    rw [h]
    show (pend == "0" && conf == "0") = false
    rcases hne with h1 | h1
    · simp [h1]
    · simp [h1]

/-- Witness for the amended C2 at a singly-listed topic: exactly one
delete. -/
theorem cleanup_deletes_per_occurrence_witness :
    (cleanUpOrphanedTopics (some true) ["arn:aws:sns:us-east-1:123456789012:orders"]
      (fun _ => Except.ok (some ⟨"0", "0"⟩))).deletes.count
        "arn:aws:sns:us-east-1:123456789012:orders" = 1 := by
  rw [(cleanup_deletes_per_occurrence
    ["arn:aws:sns:us-east-1:123456789012:orders"]
    (fun _ => Except.ok (some ⟨"0", "0"⟩))
    "arn:aws:sns:us-east-1:123456789012:orders").1 rfl]
  decide

/-- Claim C3 counterexample: the source attaches no catch to the per-topic
attribute lookup, so a rejected `getTopicAttributes` call rejects the whole
cleanup phase — it does not resolve successfully, contrary to the claim
that lookup failures are silently skipped. -/
theorem cleanup_lookup_error_propagates :
    isResolved (cleanUpOrphanedTopics (some true)
      ["arn:aws:sns:us-east-1:123456789012:t"]
      (fun _ => Except.error "AccessDenied")) = false :=
  rfl

/-- Claim C3 (amended): a topic whose lookup resolves with a falsy (null)
response, or whose lookup rejects, is never deleted; when every lookup
resolves the cleanup phase resolves successfully; but when a listed topic's
lookup rejects, the cleanup phase rejects rather than skipping silently. -/
theorem cleanup_lookup_amended
    (topics : List String) (lookup : String → Except String (Option TopicAttrs))
    (T e : String) :
    (lookup T = .ok none →
      (cleanUpOrphanedTopics (some true) topics lookup).deletes.count T = 0)
    ∧ (lookup T = .error e →
      (cleanUpOrphanedTopics (some true) topics lookup).deletes.count T = 0)
    ∧ ((∀ t ∈ topics, ∃ v, lookup t = .ok v) →
      (cleanUpOrphanedTopics (some true) topics lookup).outcome = .ok ())
    ∧ (T ∈ topics → lookup T = .error e →
      ∃ er, (cleanUpOrphanedTopics (some true) topics lookup).outcome = .error er) := by
  refine ⟨?_, ?_, ?_, ?_⟩
  · intro h
    show (topics.filter (fun t => shouldDelete (lookup t))).count T = 0
    apply count_filter_of_false
    show shouldDelete (lookup T) = false
    rw [h]
    rfl
  · intro h
    show (topics.filter (fun t => shouldDelete (lookup t))).count T = 0
    apply count_filter_of_false
    show shouldDelete (lookup T) = false
    rw [h]
    rfl
  · intro h
    show cleanupOutcome topics lookup = .ok ()
    unfold cleanupOutcome
    rw [findSomeErr_eq_none h]
  · intro hmem he
    show ∃ er, cleanupOutcome topics lookup = .error er
    obtain ⟨er, her⟩ := findSomeErr_eq_some hmem he
    exact ⟨er, by unfold cleanupOutcome; rw [her]⟩

/-- Witness for the amended C3 at a concrete lookup resolving null. -/
theorem cleanup_lookup_amended_witness :
    (cleanUpOrphanedTopics (some true) ["t1"]
      (fun _ => Except.ok none)).deletes.count "t1" = 0 :=
  (cleanup_lookup_amended ["t1"] (fun _ => Except.ok none) "t1" "e").1 rfl

/-- Claim C4: when the stack-template fetch fails, `currentSNSTopics`
resolves successfully to the empty topic list (the catch substitutes the
empty-resource template); on a successful fetch it resolves with the
extracted topic list. -/
theorem currentSNSTopics_recovers_empty :
    (∀ e, currentSNSTopics (Except.error e) = Except.ok [])
    ∧ (∀ rs, currentSNSTopics (Except.ok rs) = Except.ok (currentSNSTopicsFrom rs)) :=
  ⟨fun _ => rfl, fun _ => rfl⟩

/-- Claim C9: when `service.custom` is absent or its `snsPlusClean` flag is
falsy, `cleanUpOrphanedTopics` resolves immediately: no attribute lookups,
no delete-topic calls, successful outcome, regardless of the snapshot and
lookup behaviour. -/
theorem cleanup_skipped_when_flag_unset :
    (∀ topics lookup, cleanUpOrphanedTopics none topics lookup =
      ⟨[], [], Except.ok ()⟩)
    ∧ (∀ topics lookup, cleanUpOrphanedTopics (some false) topics lookup =
      ⟨[], [], Except.ok ()⟩) :=
  ⟨fun _ _ => rfl, fun _ _ => rfl⟩

/-- Claim C10: region resolution precedence — the truthy options region
wins; otherwise a present provider object's truthy region; otherwise the
constant `us-east-1`. The function is total, so it always returns a
string. -/
theorem getRegion_precedence (o : Option String) (p : Option (Option String)) :
    (jsTruthyStr o = true → getRegion o p = o.getD "")
    ∧ (jsTruthyStr o = false → ∀ r, p = some r → jsTruthyStr r = true →
        getRegion o p = r.getD "")
    ∧ (jsTruthyStr o = false → p = none → getRegion o p = "us-east-1")
    ∧ (jsTruthyStr o = false → ∀ r, p = some r → jsTruthyStr r = false →
        getRegion o p = "us-east-1") := by
  refine ⟨?_, ?_, ?_, ?_⟩
  · intro h
    simp [getRegion, h]
  · intro h r hp hr
    subst hp
    simp [getRegion, h, hr]
  · intro h hp
    subst hp
    simp [getRegion, h]
  · intro h r hp hr
    subst hp
    simp [getRegion, h, hr]

/-- Witness for C10 at a concrete truthy options region. -/
theorem getRegion_precedence_witness :
    getRegion (some "eu-west-2") none = "eu-west-2" :=
  (getRegion_precedence (some "eu-west-2") none).1 rfl

/-! ### Creation-set lemmas (C5) -/

/-- The `reduce`-with-`concat` over function event lists, as a flatten. -/
theorem foldl_append_events (l : List Func) :
    ∀ acc : List Event,
      l.foldl (fun a f => a ++ f.events.getD []) acc
        = acc ++ (l.map (fun f => f.events.getD [])).flatten := by
  induction l with
  | nil => intro acc; simp
  | cons f fs ih =>
    intro acc
    rw [List.foldl_cons, ih, List.map_cons, List.flatten_cons, List.append_assoc]

/-- `snsPlusTopicNames` distributes over concatenation. -/
theorem snsPlusTopicNames_append (a b : List Event) :
    snsPlusTopicNames (a ++ b) = snsPlusTopicNames a ++ snsPlusTopicNames b := by
  simp [snsPlusTopicNames, List.filter_append]

/-- A function without any truthy custom event contributes no topic
names. -/
theorem snsPlusTopicNames_of_no_event {f : Func}
    (h : hasSNSPlusEvent f = false) :
    snsPlusTopicNames (f.events.getD []) = [] := by
  cases f with
  | mk evs =>
    cases evs with
    | none => rfl
    | some l =>
      have h' : ∀ e ∈ l, ¬jsTruthyStr e.snsPlus = true := List.any_eq_false.mp h
      simp [snsPlusTopicNames, List.filter_eq_nil_iff.mpr h']

/-- Restricting the traversal to functions with some custom event does not
change the collected topic names. -/
theorem snsPlusTopicNames_filter_funcs (l : List Func) :
    snsPlusTopicNames
        ((l.filter hasSNSPlusEvent).map (fun f => f.events.getD [])).flatten
      = snsPlusTopicNames (l.map (fun f => f.events.getD [])).flatten := by
  induction l with
  | nil => rfl
  | cons f fs ih =>
    cases hf : hasSNSPlusEvent f with
    | true =>
      simp only [List.filter_cons, hf, if_true, List.map_cons, List.flatten_cons,
        snsPlusTopicNames_append, ih]
    | false =>
      simp only [List.filter_cons, hf, Bool.false_eq_true, if_false, List.map_cons,
        List.flatten_cons, snsPlusTopicNames_append, ih,
        snsPlusTopicNames_of_no_event hf, List.nil_append]

/-- Claim C5: the creation set equals the topic names of custom-tagged
events across all functions, in traversal order with duplicates preserved,
concatenated with the variable-accumulated topic names; the end-to-end
examples of the specification hold; and the variable handler appends the
stripped topic name to the accumulator. -/
theorem allSNSPlusTopics_spec :
    (∀ functions topicRefs, allSNSPlusTopics functions topicRefs
      = allTopicNamesSpec functions topicRefs)
    ∧ allSNSPlusTopics
        [("A", ⟨some [⟨some "X", none, []⟩]⟩), ("B", ⟨some []⟩)] [] = ["X"]
    ∧ allSNSPlusTopics [] [] = []
    ∧ (∀ topicRefs region accountId,
        (loadAndReplaceTopicFromVariable topicRefs region accountId
          "snsPlus:orders").1 = topicRefs ++ ["orders"]) := by
  refine ⟨?_, by decide, rfl, ?_⟩
  · intro functions topicRefs
    unfold allSNSPlusTopics allTopicNamesSpec allSNSPlusFunctions
    rw [foldl_append_events, foldl_append_events, List.nil_append, List.nil_append,
      snsPlusTopicNames_filter_funcs]
  · intro topicRefs region accountId
    show (topicRefs ++ [if "snsPlus:".data.isPrefixOf "snsPlus:orders".data then
        (⟨"snsPlus:orders".data.drop 8⟩ : String) else "snsPlus:orders"]) = _
    rw [show (if "snsPlus:".data.isPrefixOf "snsPlus:orders".data then
        (⟨"snsPlus:orders".data.drop 8⟩ : String) else "snsPlus:orders") = "orders"
      from by decide]

/-! ### Pre-package conversion lemmas (C7) -/

/-- When no event of the list is custom-tagged, the per-event conversion is
the identity on the list. -/
theorem map_convertEvent_id {region accountId : String} {evs : List Event}
    (h : ∀ e ∈ evs, jsTruthyStr e.snsPlus = false) :
    evs.map (convertEvent region accountId) = evs := by
  have h' : ∀ e ∈ evs, convertEvent region accountId e = e := by
    intro e he
    simp [convertEvent, h e he]
  calc evs.map (convertEvent region accountId) = evs.map id :=
        List.map_congr_left (fun a ha => h' a ha)
    _ = evs := List.map_id evs

/-- The in-place mutation of one function equals mapping the per-event
conversion over its (possibly absent) event list. -/
theorem convertFunc_eq (region accountId : String) (f : Func) :
    convertFunc region accountId f
      = ⟨f.events.map (fun evs => evs.map (convertEvent region accountId))⟩ := by
  cases f with
  | mk evs =>
    cases evs with
    | none => rfl
    | some l =>
      cases hl : hasSNSPlusEvent ⟨some l⟩ with
      | true => simp [convertFunc, hl]
      | false =>
        have h' : ∀ e ∈ l, jsTruthyStr e.snsPlus = false := by
          intro e he
          simpa using List.any_eq_false.mp hl e he
        simp [convertFunc, hl, map_convertEvent_id h']

/-- Claim C7: the pre-package conversion rewrites the functions map
pointwise and order-preservingly, mapping the per-event conversion over
every event list; per event, the custom tag field and all other fields are
unchanged, and the native `sns` field is replaced by the computed ARN
exactly on events carrying a truthy custom tag (and untouched otherwise). -/
theorem convertToSNSEvents_frame (region accountId : String)
    (functions : List (String × Func)) :
    convertToSNSEvents region accountId functions
      = functions.map (fun p =>
          (p.1, ⟨p.2.events.map (fun evs =>
            evs.map (convertEvent region accountId))⟩))
    ∧ (∀ e, (convertEvent region accountId e).snsPlus = e.snsPlus)
    ∧ (∀ e, (convertEvent region accountId e).other = e.other)
    ∧ (∀ e, (convertEvent region accountId e).sns =
        if jsTruthyStr e.snsPlus then
          some (formatSNSArn region accountId (e.snsPlus.getD ""))
        else e.sns) := by
  refine ⟨?_, ?_, ?_, ?_⟩
  · unfold convertToSNSEvents
    exact List.map_congr_left (fun p _ => by rw [convertFunc_eq])
  · intro e
    cases h : jsTruthyStr e.snsPlus <;> simp [convertEvent, h]
  · intro e
    cases h : jsTruthyStr e.snsPlus <;> simp [convertEvent, h]
  · intro e
    cases h : jsTruthyStr e.snsPlus <;> simp [convertEvent, h]

/-! ### Template-differ lemmas (C8) -/

/-- The C8 filter as the specification words it: resources of the
subscription kind whose topic identifier is a literal string (of any
contents, the empty string included), projected to that string. -/
def subscriptionLiteralTopicIds (resources : List (String × CFResource)) : List String :=
  ((resources.map Prod.snd).filter (fun r =>
      r.type == "AWS::SNS::Subscription" &&
      (match r.topicArn with
       | some (JSVal.str _) => true
       | _ => false))).map (fun r =>
    match r.topicArn with
    | some (JSVal.str s) => s
    | _ => "")

/-- Claim C8 counterexample: a subscription resource whose `TopicArn` is
the empty literal string is a literal string, yet the source's truthiness
test (`Properties.TopicArn &&`) excludes it, so the extracted list differs
from the claimed one. -/
theorem currentSNSTopicsFrom_empty_string_excluded :
    currentSNSTopicsFrom
        [("S1", ⟨"AWS::SNS::Subscription", some (JSVal.str "")⟩)]
      ≠ subscriptionLiteralTopicIds
        [("S1", ⟨"AWS::SNS::Subscription", some (JSVal.str "")⟩)] := by
  decide

/-- Mapping a projection over a filtered list is a `filterMap`. -/
theorem filter_map_eq_filterMap {α β : Type} (p : α → Bool) (g : α → β)
    (l : List α) :
    (l.filter p).map g = l.filterMap (fun a => if p a then some (g a) else none) := by
  induction l with
  | nil => rfl
  | cons a t ih =>
    rw [List.filter_cons, List.filterMap_cons]
    cases h : p a <;> simp [h, ih]

/-- Claim C8 (amended): the template differ returns exactly the topic
identifiers of resources whose type is the subscription kind and whose
topic identifier property is a nonempty literal string, in the template's
resource-key order. -/
theorem currentSNSTopicsFrom_characterization
    (resources : List (String × CFResource)) :
    currentSNSTopicsFrom resources
      = resources.filterMap (fun p =>
          match p.2.type == "AWS::SNS::Subscription", p.2.topicArn with
          | true, some (JSVal.str s) => if s.isEmpty then none else some s
          | _, _ => none) := by
  unfold currentSNSTopicsFrom
  rw [filter_map_eq_filterMap, List.filterMap_map]
  apply List.filterMap_congr
  intro q _
  obtain ⟨n, ty, arn⟩ := q
  show (if _ then _ else _) = _
  cases harn : arn with
  | none => simp [harn]
  | some v =>
    cases v with
    | obj => cases hty : (ty == "AWS::SNS::Subscription") <;> simp [hty]
    | str s =>
      cases hty : (ty == "AWS::SNS::Subscription") with
      | false => simp [hty]
      | true =>
        cases hs : s.isEmpty with
        | false => simp [hty, hs]
        | true => simp [hty, hs]

/-! ### ARN formatter lemmas (C6) -/

/-- Claim C6 counterexample: the ARN formatter is not injective over
arbitrary triples — a colon inside the region can be reparsed as the
field separator. -/
theorem formatSNSArn_not_injective :
    formatSNSArn "a:b" "c" "n" = formatSNSArn "a" "b:c" "n"
    ∧ ("a:b", "c", "n") ≠ (("a", "b:c", "n") : String × String × String) :=
  ⟨by decide, by decide⟩

/-- Splitting a colon-terminated concatenation is unique when the head
contains no colon. -/
theorem colon_free_append_inj :
    ∀ (l₁ : List Char) {l₂ r₁ r₂ : List Char}, ':' ∉ l₁ → ':' ∉ l₂ →
      l₁ ++ ':' :: r₁ = l₂ ++ ':' :: r₂ → l₁ = l₂ ∧ r₁ = r₂ := by
  intro l₁
  induction l₁ with
  | nil =>
    intro l₂ r₁ r₂ _ h₂ h
    cases l₂ with
    | nil => simpa using h
    | cons b t =>
      exfalso
      rw [List.nil_append, List.cons_append] at h
      injection h with hb _
      apply h₂
      rw [← hb]
      exact List.mem_cons_self ':' t
  | cons a t ih =>
    intro l₂ r₁ r₂ h₁ h₂ h
    cases l₂ with
    | nil =>
      exfalso
      rw [List.cons_append, List.nil_append] at h
      injection h with ha _
      apply h₁
      rw [ha]
      exact List.mem_cons_self ':' t
    | cons b u =>
      rw [List.cons_append, List.cons_append] at h
      injection h with hab hrest
      have h₁' : ':' ∉ t := fun hm => h₁ (List.mem_cons_of_mem a hm)
      have h₂' : ':' ∉ u := fun hm => h₂ (List.mem_cons_of_mem b hm)
      obtain ⟨he, hr⟩ := ih h₁' h₂' hrest
      exact ⟨by rw [hab, he], hr⟩

/-- Claim C6 (amended): the ARN formatter is injective on triples whose
region and account id contain no colon character: equal ARN strings then
force equal triples (the topic name may still contain colons, being the
final field). -/
theorem formatSNSArn_inj_colon_free
    {r₁ a₁ n₁ r₂ a₂ n₂ : String}
    (hr₁ : ':' ∉ r₁.data) (ha₁ : ':' ∉ a₁.data)
    (hr₂ : ':' ∉ r₂.data) (ha₂ : ':' ∉ a₂.data)
    (h : formatSNSArn r₁ a₁ n₁ = formatSNSArn r₂ a₂ n₂) :
    r₁ = r₂ ∧ a₁ = a₂ ∧ n₁ = n₂ := by
  have hd := congrArg String.data h
  simp only [formatSNSArn, String.data_append, List.append_assoc] at hd
  simp only [show (":" : String).data = [':'] from rfl, List.singleton_append] at hd
  have hd' := List.append_cancel_left hd
  obtain ⟨hre, hrest⟩ := colon_free_append_inj _ hr₁ hr₂ hd'
  obtain ⟨hae, hne⟩ := colon_free_append_inj _ ha₁ ha₂ hrest
  exact ⟨String.ext hre, String.ext hae, String.ext hne⟩

/-- Witness for the amended C6 at a concrete colon-free triple. -/
theorem formatSNSArn_inj_witness :
    ("us-east-1" : String) = "us-east-1"
    ∧ ("123456789012" : String) = "123456789012"
    ∧ ("orders" : String) = "orders" :=
  formatSNSArn_inj_colon_free (by decide) (by decide) (by decide) (by decide) rfl

end SNSPlus
